import Mathlib

/-!
Verification of the chatter-client repository: a shallow embedding of the
string-processing and control-flow logic of the chat application
(image-tag extraction in `src/ai/flows/generate-response-from-drive.ts`,
the moderation retry loop, the server action `handleSendMessage`, the
browser-side image fallback handler, the drive knowledge-base service and
the ticket endpoint), together with theorems settling the specification
claims about them.

Strings are modelled as `List Char`.  JavaScript `toLowerCase` is modelled
on the ASCII range (all comparisons in the code involve ASCII data), and
`\s` is modelled by the four ASCII whitespace characters that occur in the
data handled by the code.
-/

/-- Strings of the embedded program. -/
abbrev Str := List Char

/-- ASCII model of JavaScript `String.prototype.toLowerCase` on one char. -/
def asciiLower (c : Char) : Char :=
  if 'A' ≤ c ∧ c ≤ 'Z' then Char.ofNat (c.toNat + 32) else c

/-- `toLowerCase` on a string. -/
def lower (xs : Str) : Str := xs.map asciiLower

/-- Whitespace, modelling the regex class `\s` (ASCII part). -/
def isWs (c : Char) : Bool := c = ' ' || c = '\t' || c = '\n' || c = '\r'

/-- JavaScript `String.prototype.trim`. -/
def trim (xs : Str) : Str :=
  ((xs.dropWhile isWs).reverse.dropWhile isWs).reverse

/-- `haystack` starts with `needle` (JS `startsWith`). -/
def startsWith : Str → Str → Bool
  | _, [] => true
  | [], _ :: _ => false
  | c :: cs, d :: ds => c = d && startsWith cs ds

/-- `haystack.includes needle` (JS `String.prototype.includes`). -/
def includes : Str → Str → Bool
  | [], n => n.isEmpty
  | c :: cs, n => startsWith (c :: cs) n || includes cs n

/-- Digit class `\d`. -/
def isDigit (c : Char) : Bool := '0' ≤ c && c ≤ '9'

/-- Word-character class `\w` = `[A-Za-z0-9_]`. -/
def isWordChar (c : Char) : Bool :=
  ('a' ≤ c && c ≤ 'z') || ('A' ≤ c && c ≤ 'Z') || isDigit c || c = '_'

/-- The separator class `[_\-.\s]` used to split file names into words. -/
def sepChar (c : Char) : Bool := c = '_' || c = '-' || c = '.' || isWs c

/-- JS `String.prototype.split` with a single-char separator class:
splits at every separator char, keeping empty pieces. -/
def splitBy (p : Char → Bool) : Str → List Str
  | [] => [[]]
  | c :: cs =>
    if p c then [] :: splitBy p cs
    else
      match splitBy p cs with
      | [] => [[c]]
      | t :: ts => (c :: t) :: ts

/-- Case-insensitive literal match: `pat` is given lower-case; consumes
`pat.length` chars of the input and returns the rest. -/
def matchCI : Str → Str → Option Str
  | [], xs => some xs
  | _ :: _, [] => none
  | p :: ps, c :: cs => if asciiLower c = p then matchCI ps cs else none

/-- Capture group produced by `\s*([^\]]+)` on the run `t` of non-`]`
characters: the greedy `\s*` takes the whole whitespace run unless that
leaves the group empty, in which case backtracking gives the group the
last whitespace character. -/
def tagGroup (t : Str) : Str :=
  let g := t.dropWhile isWs
  if g.isEmpty then t.drop (t.length - 1) else g

/-- Match of `/\[image:\s*([^\]]+)\]/i` at the head of the input;
returns the capture group and the rest of the input after the match. -/
def matchGeneralAt (xs : Str) : Option (Str × Str) :=
  match matchCI (("[image:").toList) xs with
  | none => none
  | some r1 =>
    let t := r1.takeWhile (fun c => !(c == ']'))
    if t.isEmpty then none
    else
      match r1.dropWhile (fun c => !(c == ']')) with
      | ']' :: r3 => some (tagGroup t, r3)
      | _ => none

/-- Match of `/\[image-step(\d+):\s*([^\]]+)\]/i` at the head of the
input; returns (step-number capture, name capture) and the rest. -/
def matchStepAt (xs : Str) : Option ((Str × Str) × Str) :=
  match matchCI (("[image-step").toList) xs with
  | none => none
  | some r1 =>
    let ds := r1.takeWhile isDigit
    if ds.isEmpty then none
    else
      match r1.dropWhile isDigit with
      | ':' :: r3 =>
        let t := r3.takeWhile (fun c => !(c == ']'))
        if t.isEmpty then none
        else
          match r3.dropWhile (fun c => !(c == ']')) with
          | ']' :: r5 => some ((ds, tagGroup t), r5)
          | _ => none
      | _ => none

/-- Fuelled global-replace-by-empty scanner: the JS
`String.prototype.replace` with a `g`-flagged regex and `""` as the
replacement.  `m` matches the regex at the head of the input. -/
def replTags (m : Str → Option (α × Str)) : Nat → Str → Str
  | 0, xs => xs
  | _ + 1, [] => []
  | n + 1, c :: cs =>
    match m (c :: cs) with
    | some (_, rest) => replTags m n rest
    | none => c :: replTags m n cs

/-- Fuelled global-extraction scanner: the JS `exec` loop over a
`g`-flagged regex, collecting the match data left to right. -/
def extrTags (m : Str → Option (α × Str)) : Nat → Str → List α
  | 0, _ => []
  | _ + 1, [] => []
  | n + 1, c :: cs =>
    match m (c :: cs) with
    | some (a, rest) => a :: extrTags m n rest
    | none => extrTags m n cs

/-- `String.replace(regex, "")` for a global regex. -/
def replaceAll (m : Str → Option (α × Str)) (xs : Str) : Str :=
  replTags m xs.length xs

/-- The `exec` loop collecting every match of a global regex. -/
def extractAll (m : Str → Option (α × Str)) (xs : Str) : List α :=
  extrTags m xs.length xs

/-! ## Embedding of `generate-response-from-drive.ts` (post-AI processing) -/

/-- `DriveImage` of `google-drive.ts` (`part_001` lines 221-225). -/
structure DriveImage where
  id : Str
  name : Str
  contentLink : Str
deriving DecidableEq, Repr

/-- One element of the output `imageUrls` array (object variant of the
output schema: `{id, url, stepId?}`). -/
structure ImageUrlEntry where
  id : Str
  url : Str
  stepId : Option Str
deriving DecidableEq, Repr

/-- The output of `generateResponseFromDrive`. -/
structure GenOutput where
  response : Str
  imageUrls : List ImageUrlEntry
deriving DecidableEq, Repr

/-- The general-tag `exec` loop (lines 126-132): collect `match[1].trim()`
for each match of `generalImageRegex`, keeping non-empty names. -/
def generalRefs (resp : Str) : List Str :=
  (extractAll matchGeneralAt resp).filterMap fun g =>
    let n := trim g
    if n.isEmpty then none else some n

/-- The step-tag `exec` loop (lines 135-145): collect
`(stepNum, imageName)` pairs, keeping those where both are non-empty. -/
def stepRefs (resp : Str) : List (Str × Str) :=
  (extractAll matchStepAt resp).filterMap fun p =>
    let sn := trim p.1
    let n := trim p.2
    if sn.isEmpty || n.isEmpty then none else some (sn, n)

/-- Extension alternatives of `/\b\w+\.(jpg|jpeg|png|gif|svg|webp)\b/i`
in source order. -/
def extAlts : List Str :=
  [("jpg").toList, ("jpeg").toList, ("png").toList, ("gif").toList,
    ("svg").toList, ("webp").toList]

/-- Try the extension alternatives in order at the head of `r2`,
requiring a word boundary after the matched alternative; returns the
matched extension text and the rest. -/
def tryExtAlts : List Str → Str → Option (Str × Str)
  | [], _ => none
  | e :: es, r2 =>
    match matchCI e r2 with
    | some r3 =>
      match r3 with
      | [] => some (r2.take e.length, [])
      | d :: ds =>
        if isWordChar d then tryExtAlts es r2 else some (r2.take e.length, d :: ds)
    | none => tryExtAlts es r2

/-- Match of `\w+\.(jpg|jpeg|png|gif|svg|webp)\b` at the head of the
input (the leading `\b` is checked by the scanner); returns the whole
match text and the rest. -/
def matchExtAt (xs : Str) : Option (Str × Str) :=
  let w := xs.takeWhile isWordChar
  if w.isEmpty then none
  else
    match xs.dropWhile isWordChar with
    | '.' :: r2 =>
      match tryExtAlts extAlts r2 with
      | some (e, rest) => some (w ++ '.' :: e, rest)
      | none => none
    | _ => none

/-- Fuelled scanner for the extension regex, tracking whether the
previous character is a word character (for `\b`). -/
def scanExt : Nat → Bool → Str → List Str
  | 0, _, _ => []
  | _ + 1, _, [] => []
  | n + 1, pw, c :: cs =>
    if pw then scanExt n (isWordChar c) cs
    else
      match matchExtAt (c :: cs) with
      | some (m0, rest) => m0 :: scanExt n true rest
      | none => scanExt n (isWordChar c) cs

/-- The `exec` loop over `extensionRegex` (lines 161-165). -/
def extensionMatches (resp : Str) : List Str :=
  scanExt resp.length false resp

/-- JS `name.split("/").pop() || ""`. -/
def lastPathPiece (name : Str) : Str :=
  (splitBy (fun c => c == '/') name).getLastD []

/-- The direct-mention scan over the image pool (lines 168-190): for each
knowledge image whose name (full, extensionless or filename-only form,
each longer than 3 chars) occurs in the lower-cased response, push the
image name. -/
def mentionedNames (resp : Str) (knowledgeImages : List DriveImage) : List Str :=
  knowledgeImages.filterMap fun image =>
    let fullNameLower := lower image.name
    let fileNameOnly := lastPathPiece image.name
    let nameWithoutExtension :=
      lower ((splitBy (fun c => c == '.') fileNameOnly).headD [])
    if (includes (lower resp) fullNameLower && fullNameLower.length > 3)
        || (includes (lower resp) nameWithoutExtension
            && nameWithoutExtension.length > 3)
        || (includes (lower resp) fileNameOnly && fileNameOnly.length > 3) then
      some image.name
    else none

/-- Lines 193-197: remove all general tags, then all step tags, then
`trim`. -/
def cleanResponse (resp : Str) : Str :=
  trim (replaceAll matchStepAt (replaceAll matchGeneralAt resp))

/-- The fuzzy match of one pool image against one requested name
(lines 212-263). -/
def fuzzyMatch (image : DriveImage) (name : Str) : Bool :=
  let imageLower := lower image.name
  let nameLower := lower name
  let imageFilename :=
    let x := lastPathPiece imageLower
    if x.isEmpty then imageLower else x
  let nameFilename :=
    let x := lastPathPiece nameLower
    if x.isEmpty then nameLower else x
  let exactMatch := imageLower == nameLower
  let exactFilenameMatch := imageFilename == nameFilename
  let imageContainsName := includes imageLower nameLower
  let nameContainsImage := includes nameLower imageLower
  let filenameContainsName := includes imageFilename nameFilename
  let nameContainsFilename := includes nameFilename imageFilename
  let imageWords := splitBy sepChar imageFilename
  let nameWords := splitBy sepChar nameFilename
  let wordMatch := imageWords.any fun iw =>
    nameWords.any fun nw =>
      iw.length > 3 && nw.length > 3 && (includes iw nw || includes nw iw)
  exactMatch || exactFilenameMatch || imageContainsName || nameContainsImage
    || filenameContainsName || nameContainsFilename || wordMatch

/-- `knowledgeImages.filter(image => requestedImageNames.some(...))`. -/
def selectImages (names : List Str) (pool : List DriveImage) : List DriveImage :=
  pool.filter fun image => names.any fun name => fuzzyMatch image name

/-- The relevance terms of lines 272-292. -/
def imageRelevanceTerms : List Str :=
  [("show").toList, ("visual").toList, ("illustrat").toList,
    ("diagram").toList, ("chart").toList, ("graph").toList, ("see").toList,
    ("look").toList, ("picture").toList, ("image").toList, ("photo").toList,
    ("display").toList, ("step").toList, ("process").toList,
    ("login").toList, ("screenshot").toList, ("interface").toList,
    ("ui").toList, ("screen").toList]

/-- Lines 294-296. -/
def mightBenefitFromImages (cleaned : Str) : Bool :=
  imageRelevanceTerms.any fun term => includes (lower cleaned) term

/-- The login-image filter of lines 306-310. -/
def loginNamed (img : DriveImage) : Bool :=
  includes (lower img.name) (("login").toList)
    || includes (lower img.name) (("sign in").toList)

/-- The step association lookup for one selected image (lines 334-344). -/
def stepAssocFor (steps : List (Str × Str)) (img : DriveImage) :
    Option (Str × Str) :=
  steps.find? fun s =>
    includes (lower img.name) (lower s.2) || includes (lower s.2) (lower img.name)

/-- Output entry for one selected image (lines 332-359). -/
def mkEntry (steps : List (Str × Str)) (img : DriveImage) : ImageUrlEntry :=
  match stepAssocFor steps img with
  | some s => ⟨img.id, img.contentLink, some (("step-").toList ++ s.1)⟩
  | none => ⟨img.id, img.contentLink, none⟩

/-- The requested-name accumulator of lines 118-145: general-tag names
followed by the names of the step-tag references. -/
def requestedNames0 (answer : Str) : List Str :=
  generalRefs answer ++ (stepRefs answer).map fun p => p.2

/-- The image-selection stage (lines 203-322): fuzzy matching against
the requested names when there are any, otherwise the
might-benefit-from-images fallback over the cleaned response. -/
def selectedPool (names : List Str) (cleaned : Str)
    (knowledgeImages : List DriveImage) : List DriveImage :=
  let selected0 :=
    if names.isEmpty then [] else selectImages names knowledgeImages
  if selected0.isEmpty then
    if mightBenefitFromImages cleaned then
      let sel2 :=
        if includes (lower cleaned) (("login").toList) then
          let li := knowledgeImages.filter loginNamed
          if li.isEmpty then [] else li.take 2
        else []
      if sel2.isEmpty then knowledgeImages.take 2 else sel2
    else []
  else selected0

/-- The post-AI processing of `generateResponseFromDrive`
(lines 113-367), as a function of the raw model answer and the candidate
image pool (the hosted-model call that produces the answer is external).
-/
def generateResponseFromDrive (answer : Str)
    (knowledgeImages : List DriveImage) : GenOutput :=
  if knowledgeImages.isEmpty then ⟨answer, []⟩
  else
    let sRefs := stepRefs answer
    let names0 := requestedNames0 answer
    let names :=
      if names0.isEmpty then
        extensionMatches answer ++ mentionedNames answer knowledgeImages
      else names0
    let cleaned := cleanResponse answer
    let limited := (selectedPool names cleaned knowledgeImages).take 3
    if limited.isEmpty then ⟨answer, []⟩
    else ⟨cleaned, limited.map (mkEntry sRefs)⟩

/-! ## Embedding of `moderate-chat-content.ts` (`part_012`) -/

/-- Output schema of the moderation flow. -/
structure ModerationOutput where
  isHarmful : Bool
  harmCategory : Option Str
  harmProbability : Option Str
  feedback : Str
deriving DecidableEq, Repr

/-- The overload test of lines 102-106: the error text contains both
`503 Service Unavailable` and `The model is overloaded`. -/
def isOverloadError (e : Str) : Bool :=
  includes e (("503 Service Unavailable").toList)
    && includes e (("The model is overloaded").toList)

/-- The terminal error thrown after exhausting the retries (line 123,
with `maxRetries = 3`). -/
def moderationFailedMsg : Str :=
  ("Failed to moderate content after 3 attempts due to service overload. Please try again later.").toList

/-- The retry loop of `moderateChatContentFlow` (lines 89-126): `att k`
is the outcome of the hosted-model call on attempt `k`; the result pairs
the final outcome with the list of backoff delays (ms) slept, in order.
`remaining` is `maxRetries - retries`. -/
def modGo (att : Nat → Except Str ModerationOutput) :
    Nat → Nat → Except Str ModerationOutput × List Nat
  | 0, _ => (.error moderationFailedMsg, [])
  | r + 1, k =>
    match att k with
    | .ok o => (.ok o, [])
    | .error e =>
      if isOverloadError e then
        let res := modGo att r (k + 1)
        (res.1, (1000 * 2 ^ k) :: res.2)
      else (.error e, [])

/-- `moderateChatContentFlow` with `maxRetries = 3`, starting at
`retries = 0`. -/
def moderateChatContentFlow (att : Nat → Except Str ModerationOutput) :
    Except Str ModerationOutput × List Nat :=
  modGo att 3 0

/-! ## Embedding of `generateResponseFromDriveFlow` (lines 428-454) -/

/-- The static apology of lines 448-450. -/
def apologyMessage : Str :=
  ("I apologize, but I encountered an error while generating a response. Could you please try asking your question again?").toList

/-- The flow body: one call to the prompt (`att 0`); on success the
response with an empty image list (extraction happens in the caller), on
any thrown error the static apology with an empty image list.  `att` is
the sequence of outcomes successive prompt calls would produce; only
`att 0` is ever consulted (no retry at this layer). -/
def generateResponseFromDriveFlow (att : Nat → Except Str GenOutput) :
    GenOutput :=
  match att 0 with
  | .ok output => ⟨output.response, []⟩
  | .error _ => ⟨apologyMessage, []⟩

/-! ## Embedding of the server action `handleSendMessage` (`part_008`) -/

/-- Image object sent to the chat component. -/
structure ChatImage where
  url : Str
  alt : Option Str
  stepId : Option Str
deriving DecidableEq, Repr

/-- Result shape of `handleSendMessage`. -/
structure SendResult where
  response : Option Str
  error : Option Str
  images : Option (List ChatImage)
  suggestTicket : Option Bool
deriving DecidableEq, Repr

/-- Decimal digits of a number (JS number-to-string in a template). -/
def natChars (n : Nat) : Str := (Nat.repr n).toList

/-- `Related image ${index + 1} from knowledge base`. -/
def relatedAlt (index : Nat) : Str :=
  ("Related image ").toList ++ natChars (index + 1)
    ++ (" from knowledge base").toList

/-- `/api/image-proxy?fileId=${fileId}`. -/
def proxyUrl (fileId : Str) : Str :=
  ("/api/image-proxy?fileId=").toList ++ fileId

/-- First match of `/id=([^&]+)/`: scan for `id=` followed by at least
one non-`&` character and capture that run. -/
def matchIdParam : Str → Option Str
  | [] => none
  | c :: cs =>
    if startsWith (c :: cs) (("id=").toList) then
      let t := ((c :: cs).drop 3).takeWhile fun d => !(d == '&')
      if t.isEmpty then matchIdParam cs else some t
    else matchIdParam cs

/-- The image mapping of `handleSendMessage` (lines 74-114): entries with
a file id become proxy URLs; entries without one fall back to extracting
an id from the URL when it is an http URL, and are dropped otherwise. -/
def mapImages (entries : List ImageUrlEntry) : List ChatImage :=
  entries.enum.filterMap fun p =>
    let index := p.1
    let e := p.2
    if !e.id.isEmpty then some ⟨proxyUrl e.id, some (relatedAlt index), e.stepId⟩
    else if !(startsWith e.url (("http").toList)) then none
    else
      match matchIdParam e.url with
      | some fid => some ⟨proxyUrl fid, some (relatedAlt index), e.stepId⟩
      | none => none

/-- The literal returned by `getKnowledgeBase` when the folder holds no
documents (`google-drive.ts` line 258). -/
def noDocsMsg : Str :=
  ("I am sorry, I cannot answer this question based on the provided Google Drive data, as no relevant documents were found.").toList

/-- The ticket-suggestion sentence appended in `part_008` lines 49-51. -/
def ticketSuffix : Str :=
  (" Would you like to create a ticket for this question so our team can follow up?").toList

/-- The knowledge-base trouble message of `part_008` line 39. -/
def kbTroubleMsg : Str :=
  ("I am having trouble accessing my knowledge base from Google Drive right now. Please ensure it's configured correctly and try again later.").toList

/-- `handleSendMessage` (`part_008` lines 13-139) as a function of the
moderation outcome for the message, the knowledge-base string and the
generation result (the external calls are abstracted into these
arguments). -/
def handleSendMessage (moderationResult : ModerationOutput)
    (knowledgeBase : Str) (responseResult : GenOutput) : SendResult :=
  if moderationResult.isHarmful then
    { response := none
      error := some (("Message flagged as harmful. ").toList
        ++ moderationResult.feedback)
      images := none
      suggestTicket := none }
  else if startsWith knowledgeBase (("Error:").toList) then
    { response := none, error := some kbTroubleMsg, images := none
      suggestTicket := none }
  else if knowledgeBase == noDocsMsg then
    { response := some (noDocsMsg ++ ticketSuffix), error := none
      images := none, suggestTicket := some true }
  else
    let images := mapImages responseResult.imageUrls
    { response := some responseResult.response
      error := none
      images := if images.isEmpty then none else some images
      suggestTicket := none }

/-! ## Embedding of the transcript update in `chat-layout.tsx` -/

inductive Role where
  | user
  | assistant
deriving DecidableEq, Repr

/-- A transcript message. -/
structure ChatMsg where
  id : Str
  role : Role
  content : Str
  images : Option (List ChatImage)
  suggestTicket : Option Bool
deriving DecidableEq, Repr

/-- The result-handling part of `handleSubmit` (`chat-layout.tsx` lines
126-150) as a transcript transform: the user message has already been
appended optimistically; on an error result a destructive toast carries
the error text and the user message is filtered out of the transcript;
on a response a bot message (with fresh id `botId`) is appended. -/
def handleSubmitUpdate (prev : List ChatMsg) (userMessage : ChatMsg)
    (botId : Str) (result : SendResult) : List ChatMsg × Option Str :=
  let appended := prev ++ [userMessage]
  match result.error with
  | some err => (appended.filter fun m => !(m.id == userMessage.id), some err)
  | none =>
    match result.response with
    | some resp =>
      (appended ++ [⟨botId, .assistant, resp, result.images,
        result.suggestTicket⟩], none)
    | none => (appended, none)

/-! ## Embedding of `getKnowledgeBase` (`google-drive.ts`, structured
variant, lines 232-304) -/

/-- A drive listing item (`files(id, name, mimeType, ...)`). -/
structure DriveItem where
  id : Str
  name : Str
  mimeType : Str
deriving DecidableEq, Repr

/-- Result of `getKnowledgeBase`: either a plain string (errors and the
no-documents case) or the structured knowledge base. -/
inductive KBResult where
  | text (s : Str)
  | kb (documents : Str) (images : List (Str × List DriveItem))
deriving DecidableEq, Repr

/-- Document filter of lines 246-250. -/
def isDocMime (i : DriveItem) : Bool :=
  i.mimeType == ("text/plain").toList
    || i.mimeType == ("application/vnd.google-apps.document").toList

/-- Folder filter of lines 252-254. -/
def isFolderMime (i : DriveItem) : Bool :=
  i.mimeType == ("application/vnd.google-apps.folder").toList

/-- Error string for a missing folder id (lines 236-240). -/
def folderIdMissingMsg : Str :=
  ("Error: The GOOGLE_DRIVE_FOLDER_ID environment variable is not configured. Please set it in your .env file and restart the development server.").toList

/-- One document block of lines 262-270. -/
def docEntry (contents : Str → Str) (doc : DriveItem) : Str :=
  if !doc.id.isEmpty && !doc.name.isEmpty && !doc.mimeType.isEmpty then
    ("Document: ").toList ++ doc.name ++ ("\nContent:\n").toList
      ++ contents doc.id ++ ("\n---").toList
  else []

/-- `getKnowledgeBase` as a function of the configured folder id, the
items listed in it, the content fetch and the per-folder image listing
(the drive client is external). -/
def getKnowledgeBase (folderId : Option Str) (allItems : List DriveItem)
    (contents : Str → Str) (imagesIn : Str → List DriveItem) : KBResult :=
  match folderId with
  | none => .text folderIdMissingMsg
  | some _ =>
    let documents := allItems.filter isDocMime
    let folders := allItems.filter isFolderMime
    if documents.isEmpty then .text noDocsMsg
    else
      .kb (List.intercalate (['\n']) (documents.map (docEntry contents)))
        (folders.filterMap fun f =>
          if !f.id.isEmpty && !f.name.isEmpty then
            let imgs := imagesIn f.id
            if imgs.isEmpty then none else some (f.name, imgs)
          else none)

/-! ## Embedding of the browser image `onError` fallback
(`chat-message.tsx`, `part_002` lines 73-164) -/

/-- What one invocation of the `onError` handler does to the element. -/
inductive FallbackAction where
  | setSrc (url : Str)
  | iframeFor (fileId : Str)
  | placeholder
deriving DecidableEq, Repr

/-- First match of `/\/d\/([^/]+)/`. -/
def matchSlashD : Str → Option Str
  | [] => none
  | c :: cs =>
    if startsWith (c :: cs) (("/d/").toList) then
      let t := ((c :: cs).drop 3).takeWhile fun d => !(d == '/')
      if t.isEmpty then matchSlashD cs else some t
    else matchSlashD cs

/-- The usercontent CDN host marker of line 81. -/
def gucHost : Str := ("googleusercontent.com").toList

/-- The drive host marker of lines 99 and 129. -/
def driveHost : Str := ("drive.google.com").toList

/-- The cache-busting rewrite of lines 86-89 (`now` is `Date.now()`). -/
def cacheBustUrl (url : Str) (now : Nat) : Str :=
  if includes url (("?").toList) then
    url ++ ("&cb=").toList ++ natChars now
  else url ++ ("?cb=").toList ++ natChars now

/-- `https://drive.google.com/uc?export=view&id=${fileId}`. -/
def exportViewUrl (fileId : Str) : Str :=
  ("https://drive.google.com/uc?export=view&id=").toList ++ fileId

/-- One invocation of the `onError` handler, dispatching on the original
`image.url` (the handler reads `image.url`, not the current `src`, and
keeps no state between invocations). -/
def onErrorAction (imgUrl : Str) (now : Nat) : FallbackAction :=
  if includes imgUrl gucHost then
    .setSrc (cacheBustUrl imgUrl now)
  else
    let step2 : Option FallbackAction :=
      if includes imgUrl driveHost then
        match matchIdParam imgUrl with
        | some fid => some (.setSrc (exportViewUrl fid))
        | none =>
          match matchSlashD imgUrl with
          | some fid => some (.setSrc (exportViewUrl fid))
          | none => none
      else none
    match step2 with
    | some a => a
    | none =>
      let step3 : Option FallbackAction :=
        if includes imgUrl driveHost then
          match matchIdParam imgUrl with
          | some fid => some (.iframeFor fid)
          | none =>
            match matchSlashD imgUrl with
            | some fid => some (.iframeFor fid)
            | none => none
        else none
      match step3 with
      | some a => a
      | none => .placeholder

/-! ## Embedding of the create-ticket endpoint (`POST /api/create-ticket`)
-/

/-- JSON response of the endpoint (status plus the possible fields). -/
structure TicketResponse where
  status : Nat
  error : Option Str
  success : Option Bool
  ticketId : Option Str
  message : Option Str
deriving DecidableEq, Repr

def missingQuestionMsg : Str := ("Missing required field: question").toList

/-- `Date.now().toString().slice(-6)`. -/
def lastSix (now : Nat) : Str :=
  let s := natChars now
  s.drop (s.length - 6)

/-- The POST handler (lines 58-96 of the create-ticket route): a missing
or empty `question` yields a 400 error; otherwise a mock ticket id from
the clock. -/
def createTicketPOST (question : Option Str) (_userEmail : Option Str)
    (now : Nat) : TicketResponse :=
  if (match question with | none => true | some q => q.isEmpty) then
    ⟨400, some missingQuestionMsg, none, none, none⟩
  else
    ⟨200, none, some true, some ((("TICKET-").toList) ++ lastSix now),
      some (("Ticket created successfully. Our team will review your question.").toList)⟩

/-! ## Lemmas about the string model -/

theorem startsWith_nil_needle (xs : Str) : startsWith xs [] = true := by
  cases xs <;> rfl

theorem includes_nil_needle (xs : Str) : includes xs [] = true := by
  induction xs with
  | nil => rfl
  | cons c cs _ => simp [includes, startsWith_nil_needle]

theorem startsWith_append (xs b n : Str) (h : startsWith xs n = true) :
    startsWith (xs ++ b) n = true := by
  induction n generalizing xs with
  | nil => exact startsWith_nil_needle _
  | cons d ds ih =>
    cases xs with
    | nil => simp [startsWith] at h
    | cons c cs =>
      simp only [startsWith, Bool.and_eq_true] at h ⊢
      exact ⟨h.1, ih cs h.2⟩

theorem includes_append_right (m b n : Str) (h : includes m n = true) :
    includes (m ++ b) n = true := by
  induction m with
  | nil =>
    simp only [includes, List.isEmpty_iff] at h
    subst h
    exact includes_nil_needle b
  | cons c cs ih =>
    simp only [includes, Bool.or_eq_true] at h ⊢
    rcases h with h | h
    · exact Or.inl (startsWith_append _ _ _ h)
    · exact Or.inr (ih h)

theorem includes_append_left (a m n : Str) (h : includes m n = true) :
    includes (a ++ m) n = true := by
  induction a with
  | nil => simpa using h
  | cons c cs ih => simp only [List.cons_append, includes, Bool.or_eq_true]; exact Or.inr ih

theorem includes_of_middle (a m b n : Str) (h : includes m n = true) :
    includes (a ++ m ++ b) n = true := by
  have h1 := includes_append_right m b n h
  have := includes_append_left a (m ++ b) n h1
  simpa [List.append_assoc] using this

theorem dropWhile_decomp (p : Char → Bool) (xs : Str) :
    ∃ a, xs = a ++ xs.dropWhile p := by
  induction xs with
  | nil => exact ⟨[], rfl⟩
  | cons c cs ih =>
    by_cases h : p c
    · rcases ih with ⟨a, ha⟩
      exact ⟨c :: a, by simp [List.dropWhile, h, ← ha]⟩
    · exact ⟨[], by simp [List.dropWhile, h]⟩

theorem trim_decomp (xs : Str) : ∃ a b, xs = a ++ trim xs ++ b := by
  rcases dropWhile_decomp isWs xs with ⟨a, ha⟩
  rcases dropWhile_decomp isWs (xs.dropWhile isWs).reverse with ⟨c, hc⟩
  have h2 : xs.dropWhile isWs = trim xs ++ c.reverse := by
    have h3 := congrArg List.reverse hc
    simpa [trim, List.reverse_append] using h3
  rw [h2] at ha
  exact ⟨a, c.reverse, by rw [List.append_assoc]; exact ha⟩

theorem includes_trim_false (xs n : Str) (h : includes xs n = false) :
    includes (trim xs) n = false := by
  cases ht : includes (trim xs) n with
  | false => rfl
  | true =>
    exfalso
    rcases trim_decomp xs with ⟨a, b, hab⟩
    have h1 := includes_of_middle a (trim xs) b n ht
    rw [← hab] at h1
    rw [h1] at h
    exact Bool.noConfusion h

theorem startsWith_self_append (xs b : Str) : startsWith (xs ++ b) xs = true := by
  induction xs with
  | nil => exact startsWith_nil_needle _
  | cons c cs ih => simp [startsWith, ih]

/-! ## Lemmas about the tag scanners -/

/-- No `[`, so no tag can start here: predicate on a block of text. -/
def noLB (xs : Str) : Bool := xs.all fun c => !(asciiLower c == '[')

theorem noLB_append {p q : Str} (hp : noLB p = true) (hq : noLB q = true) :
    noLB (p ++ q) = true := by
  simp only [noLB, List.all_append, Bool.and_eq_true]
  exact ⟨hp, hq⟩

theorem matchGeneralAt_none_of_head (c : Char) (cs : Str)
    (h : (asciiLower c == '[') = false) : matchGeneralAt (c :: cs) = none := by
  have hne : ¬(asciiLower c = '[') := by simpa using h
  simp [matchGeneralAt, String.toList, matchCI, hne]

theorem matchStepAt_none_of_head (c : Char) (cs : Str)
    (h : (asciiLower c == '[') = false) : matchStepAt (c :: cs) = none := by
  have hne : ¬(asciiLower c = '[') := by simpa using h
  simp [matchStepAt, String.toList, matchCI, hne]

theorem replTags_nil (m : Str → Option (α × Str)) (n : Nat) :
    replTags m n [] = [] := by
  cases n <;> rfl

theorem extrTags_nil (m : Str → Option (α × Str)) (n : Nat) :
    extrTags m n [] = [] := by
  cases n <;> rfl

theorem replTags_skip (m : Str → Option (α × Str))
    (hm : ∀ c cs, (asciiLower c == '[') = false → m (c :: cs) = none)
    (q ys : Str) (n : Nat) (hq : noLB q = true)
    (hn : q.length + ys.length ≤ n) :
    replTags m n (q ++ ys) = q ++ replTags m (n - q.length) ys := by
  induction q generalizing n with
  | nil => simp
  | cons c cs ih =>
    have hq1 : (asciiLower c == '[') = false := by
      have h0 := hq
      simp only [noLB, List.all_cons, Bool.and_eq_true] at h0
      simpa using h0.1
    have hq2 : noLB cs = true := by
      have h0 := hq
      simp only [noLB, List.all_cons, Bool.and_eq_true] at h0
      exact h0.2
    cases n with
    | zero => simp at hn
    | succ n0 =>
      have hlen : cs.length + ys.length ≤ n0 := by
        simp only [List.length_cons] at hn
        omega
      have hmc : m (c :: (cs ++ ys)) = none := hm _ _ hq1
      have ihh := ih n0 hq2 hlen
      simp only [List.cons_append, replTags, List.append_eq, hmc, ihh,
        List.length_cons, Nat.add_sub_add_right]

theorem extrTags_skip (m : Str → Option (α × Str))
    (hm : ∀ c cs, (asciiLower c == '[') = false → m (c :: cs) = none)
    (q ys : Str) (n : Nat) (hq : noLB q = true)
    (hn : q.length + ys.length ≤ n) :
    extrTags m n (q ++ ys) = extrTags m (n - q.length) ys := by
  induction q generalizing n with
  | nil => simp
  | cons c cs ih =>
    have hq1 : (asciiLower c == '[') = false := by
      have h0 := hq
      simp only [noLB, List.all_cons, Bool.and_eq_true] at h0
      simpa using h0.1
    have hq2 : noLB cs = true := by
      have h0 := hq
      simp only [noLB, List.all_cons, Bool.and_eq_true] at h0
      exact h0.2
    cases n with
    | zero => simp at hn
    | succ n0 =>
      have hlen : cs.length + ys.length ≤ n0 := by
        simp only [List.length_cons] at hn
        omega
      have hmc : m (c :: (cs ++ ys)) = none := hm _ _ hq1
      have ihh := ih n0 hq2 hlen
      simp only [List.cons_append, extrTags, List.append_eq, hmc, ihh,
        List.length_cons, Nat.add_sub_add_right]

theorem replTags_noLB_id (m : Str → Option (α × Str))
    (hm : ∀ c cs, (asciiLower c == '[') = false → m (c :: cs) = none)
    (s : Str) (n : Nat) (hs : noLB s = true) (hn : s.length ≤ n) :
    replTags m n s = s := by
  have := replTags_skip m hm s [] n hs (by simpa using hn)
  simpa [replTags_nil] using this

theorem extrTags_noLB_nil (m : Str → Option (α × Str))
    (hm : ∀ c cs, (asciiLower c == '[') = false → m (c :: cs) = none)
    (s : Str) (n : Nat) (hs : noLB s = true) (hn : s.length ≤ n) :
    extrTags m n s = [] := by
  have := extrTags_skip m hm s [] n hs (by simpa using hn)
  simpa [extrTags_nil] using this

/-! ## The concrete step tag of the spec's test property -/

/-- The tag `[image-step2: foo.png (ID: abc)]` of the spec's testable
property. -/
def stepTag2 : Str := ("[image-step2: foo.png (ID: abc)]").toList

/-- The tag without its opening bracket. -/
def stepTagTail2 : Str := ("image-step2: foo.png (ID: abc)]").toList

/-- The name capture of `stepTag2`. -/
def stepCap2 : Str := ("foo.png (ID: abc)").toList

theorem stepTag2_cons (ys : Str) :
    stepTag2 ++ ys = '[' :: (stepTagTail2 ++ ys) := rfl

theorem matchStepAt_tag2 (ys : Str) :
    matchStepAt (stepTag2 ++ ys) = some (((("2").toList), stepCap2), ys) := rfl

theorem matchGeneralAt_tag2 (ys : Str) :
    matchGeneralAt (stepTag2 ++ ys) = none := rfl

theorem stepTagTail2_noLB : noLB stepTagTail2 = true := by decide

theorem stepTagTail2_len : stepTagTail2.length = 31 := rfl

theorem stepTag2_len : stepTag2.length = 32 := rfl

theorem replTags_gen_tag2 (ys : Str) (n : Nat) (hn : 32 + ys.length ≤ n) :
    replTags matchGeneralAt n (stepTag2 ++ ys) =
      stepTag2 ++ replTags matchGeneralAt (n - 32) ys := by
  cases n with
  | zero => omega
  | succ n0 =>
    rw [stepTag2_cons]
    have hm0 : matchGeneralAt ('[' :: (stepTagTail2 ++ ys)) = none := by
      have h1 := matchGeneralAt_tag2 ys
      rwa [stepTag2_cons] at h1
    simp only [replTags, hm0]
    rw [replTags_skip matchGeneralAt matchGeneralAt_none_of_head stepTagTail2
      ys n0 stepTagTail2_noLB (by rw [stepTagTail2_len]; omega)]
    rw [stepTagTail2_len, show n0 - 31 = n0 + 1 - 32 from by omega,
      stepTag2_cons]

theorem replTags_step_tag2 (ys : Str) (n : Nat) (hn : 1 ≤ n) :
    replTags matchStepAt n (stepTag2 ++ ys) =
      replTags matchStepAt (n - 1) ys := by
  cases n with
  | zero => omega
  | succ n0 =>
    have hm0 : matchStepAt ('[' :: (stepTagTail2 ++ ys)) =
        some (((("2").toList), stepCap2), ys) := by
      have h1 := matchStepAt_tag2 ys
      rwa [stepTag2_cons] at h1
    rw [stepTag2_cons]
    simp only [replTags, hm0, Nat.add_sub_cancel]

theorem extrTags_gen_tag2 (ys : Str) (n : Nat) (hn : 32 + ys.length ≤ n) :
    extrTags matchGeneralAt n (stepTag2 ++ ys) =
      extrTags matchGeneralAt (n - 32) ys := by
  cases n with
  | zero => omega
  | succ n0 =>
    rw [stepTag2_cons]
    have hm0 : matchGeneralAt ('[' :: (stepTagTail2 ++ ys)) = none := by
      have h1 := matchGeneralAt_tag2 ys
      rwa [stepTag2_cons] at h1
    simp only [extrTags, hm0]
    rw [extrTags_skip matchGeneralAt matchGeneralAt_none_of_head stepTagTail2
      ys n0 stepTagTail2_noLB (by rw [stepTagTail2_len]; omega)]
    rw [stepTagTail2_len, show n0 - 31 = n0 + 1 - 32 from by omega]

theorem extrTags_step_tag2 (ys : Str) (n : Nat) (hn : 1 ≤ n) :
    extrTags matchStepAt n (stepTag2 ++ ys) =
      ((("2").toList), stepCap2) :: extrTags matchStepAt (n - 1) ys := by
  cases n with
  | zero => omega
  | succ n0 =>
    have hm0 : matchStepAt ('[' :: (stepTagTail2 ++ ys)) =
        some (((("2").toList), stepCap2), ys) := by
      have h1 := matchStepAt_tag2 ys
      rwa [stepTag2_cons] at h1
    rw [stepTag2_cons]
    simp only [extrTags, hm0, Nat.add_sub_cancel]

/-- The general-tag replacement leaves `p ++ stepTag2 ++ s` unchanged
when `p` and `s` contain no `[`. -/
theorem replaceAll_gen_around (p s : Str) (hp : noLB p = true)
    (hs : noLB s = true) :
    replaceAll matchGeneralAt (p ++ stepTag2 ++ s) = p ++ stepTag2 ++ s := by
  unfold replaceAll
  rw [List.append_assoc]
  rw [replTags_skip matchGeneralAt matchGeneralAt_none_of_head p
    (stepTag2 ++ s) _ hp (by simp)]
  rw [replTags_gen_tag2 s _
    (by simp only [List.length_append, stepTag2_len]; omega)]
  rw [replTags_noLB_id matchGeneralAt matchGeneralAt_none_of_head s _ hs
    (by simp only [List.length_append, stepTag2_len]; omega)]

/-- The step-tag replacement removes exactly the tag from
`p ++ stepTag2 ++ s` when `p` and `s` contain no `[`. -/
theorem replaceAll_step_around (p s : Str) (hp : noLB p = true)
    (hs : noLB s = true) :
    replaceAll matchStepAt (p ++ stepTag2 ++ s) = p ++ s := by
  unfold replaceAll
  rw [List.append_assoc]
  rw [replTags_skip matchStepAt matchStepAt_none_of_head p
    (stepTag2 ++ s) _ hp (by simp)]
  rw [replTags_step_tag2 s _
    (by simp only [List.length_append, stepTag2_len]; omega)]
  rw [replTags_noLB_id matchStepAt matchStepAt_none_of_head s _ hs
    (by simp only [List.length_append, stepTag2_len]; omega)]

/-- The cleaning stage on `p ++ stepTag2 ++ s`. -/
theorem cleanResponse_around (p s : Str) (hp : noLB p = true)
    (hs : noLB s = true) :
    cleanResponse (p ++ stepTag2 ++ s) = trim (p ++ s) := by
  unfold cleanResponse
  rw [replaceAll_gen_around p s hp hs, replaceAll_step_around p s hp hs]

/-! ## Claim theorems -/

/-- C2 counterexample.  The claim fails twice over: (a) for the answer
consisting exactly of the tag `[image-step2: foo.png (ID: abc)]` and a
pool whose image matches neither id nor name, no image is selected and
the function returns the RAW answer, so the tag (and the substring
`image-step2`) reaches the display verbatim; (b) even when the cleaning
runs, an occurrence of `image-step2` outside any tag survives it. -/
theorem c2_counterexample :
    includes
      (generateResponseFromDrive stepTag2
        [⟨("abc").toList, ("bar.png").toList, ("L2").toList⟩]).response
      (("image-step2").toList) = true
    ∧ generateResponseFromDrive stepTag2
        [⟨("abc").toList, ("bar.png").toList, ("L2").toList⟩] =
      ⟨stepTag2, []⟩
    ∧ includes
        (cleanResponse
          (("image-step2 note [image-step2: foo.png (ID: abc)]").toList))
        (("image-step2").toList) = true :=
  ⟨by decide, by decide, by decide⟩

/-- C2 (amended): the cleaning stage of lines 193-197 does remove every
tag match: for any answer `p ++ [image-step2: foo.png (ID: abc)] ++ s`
whose context `p`, `s` contains no `[` (no further tags), the cleaned
text is `trim (p ++ s)`; in particular it does not contain `image-step2`
provided the surrounding text does not itself contain that substring.
(The cleaned text reaches the display only when at least one image is
selected.) -/
theorem c2_tag_removal (p s : Str) (hp : noLB p = true) (hs : noLB s = true)
    (hfree : includes (p ++ s) (("image-step2").toList) = false) :
    cleanResponse (p ++ stepTag2 ++ s) = trim (p ++ s)
    ∧ includes (cleanResponse (p ++ stepTag2 ++ s))
        (("image-step2").toList) = false := by
  have h1 := cleanResponse_around p s hp hs
  refine ⟨h1, ?_⟩
  rw [h1]
  exact includes_trim_false _ _ hfree

theorem c2_tag_removal_witness :
    cleanResponse ((("Step one: ").toList) ++ stepTag2 ++ ((" done.").toList)) =
      trim ((("Step one: ").toList) ++ ((" done.").toList))
    ∧ includes
        (cleanResponse
          ((("Step one: ").toList) ++ stepTag2 ++ ((" done.").toList)))
        (("image-step2").toList) = false :=
  c2_tag_removal (("Step one: ").toList) ((" done.").toList)
    (by decide) (by decide) (by decide)

/-- C1 counterexample.  The lookup of a step-tagged reference is not by
id: (a) a pool image named `foo.png` with id `xyz` is attached to the
reference `[image-step2: foo.png (ID: abc)]` even though the reference
id `abc` matches no pool image; (b) a pool image with the matching id
`abc` but name `bar.png` yields no entry at all. -/
theorem c1_counterexample :
    generateResponseFromDrive stepTag2
        [⟨("xyz").toList, ("foo.png").toList, ("L").toList⟩] =
      ⟨[], [⟨("xyz").toList, ("L").toList, some (("step-2").toList)⟩]⟩
    ∧ ("xyz").toList ≠ ("abc").toList
    ∧ generateResponseFromDrive stepTag2
        [⟨("abc").toList, ("bar.png").toList, ("L2").toList⟩] =
      ⟨stepTag2, []⟩ :=
  ⟨by decide, by decide, by decide⟩

/-- C8: if the hosted-model call of `generateResponseFromDriveFlow`
fails, the flow returns the static apology and an empty image list,
consulting only the first (and only) call attempt: no retry at this
layer. -/
theorem c8_generation_failure_apology (att : Nat → Except Str GenOutput)
    (e : Str) (h : att 0 = .error e) :
    generateResponseFromDriveFlow att = ⟨apologyMessage, []⟩
    ∧ (∀ att2 : Nat → Except Str GenOutput, att2 0 = att 0 →
        generateResponseFromDriveFlow att2 = generateResponseFromDriveFlow att) := by
  constructor
  · unfold generateResponseFromDriveFlow
    rw [h]
  · intro att2 h2
    unfold generateResponseFromDriveFlow
    rw [h2]

theorem c8_generation_failure_apology_witness :
    generateResponseFromDriveFlow
        (fun _ => Except.error (("boom").toList)) =
      ⟨apologyMessage, []⟩ :=
  (c8_generation_failure_apology (fun _ => Except.error (("boom").toList))
    (("boom").toList) rfl).1

/-- C9: `POST /api/create-ticket` returns 400 with an error message and
no ticket id when `question` is missing or empty, and success with a
ticket id for a non-empty question. -/
theorem c9_create_ticket (q : Option Str) (em : Option Str) (now : Nat) :
    ((q = none ∨ q = some []) →
      (createTicketPOST q em now).status = 400
      ∧ (createTicketPOST q em now).error = some missingQuestionMsg
      ∧ (createTicketPOST q em now).ticketId = none)
    ∧ (∀ s : Str, q = some s → s ≠ [] →
      (createTicketPOST q em now).status = 200
      ∧ (createTicketPOST q em now).success = some true
      ∧ (createTicketPOST q em now).ticketId =
          some ((("TICKET-").toList) ++ lastSix now)
      ∧ (createTicketPOST q em now).error = none) := by
  constructor
  · rintro (rfl | rfl) <;> simp [createTicketPOST]
  · rintro s rfl hs
    have hne : s.isEmpty = false := by
      cases s with
      | nil => exact absurd rfl hs
      | cons c cs => rfl
    simp [createTicketPOST, hne]

theorem c9_create_ticket_witness :
    ((createTicketPOST none none 1736500000000).status = 400
      ∧ (createTicketPOST none none 1736500000000).error =
          some missingQuestionMsg
      ∧ (createTicketPOST none none 1736500000000).ticketId = none)
    ∧ ((createTicketPOST (some (("How do I log in?").toList)) none
          1736500000000).status = 200
      ∧ (createTicketPOST (some (("How do I log in?").toList)) none
          1736500000000).success = some true
      ∧ (createTicketPOST (some (("How do I log in?").toList)) none
          1736500000000).ticketId =
            some ((("TICKET-").toList) ++ lastSix 1736500000000)
      ∧ (createTicketPOST (some (("How do I log in?").toList)) none
          1736500000000).error = none) :=
  ⟨(c9_create_ticket none none 1736500000000).1 (Or.inl rfl),
   (c9_create_ticket (some (("How do I log in?").toList)) none
      1736500000000).2 (("How do I log in?").toList) rfl (by decide)⟩

/-- C3: three consecutive overload errors exhaust the retry loop: the
flow surfaces the terminal error after sleeping 1s, 2s and 4s (at least
7 seconds in total); and an error that is not the transient overload
error propagates immediately, with no further delay, from whichever
attempt produced it. -/
theorem c3_moderation_retry (att : Nat → Except Str ModerationOutput) :
    ((∀ i, i < 3 → ∃ e, att i = Except.error e ∧ isOverloadError e = true) →
      moderateChatContentFlow att =
        (.error moderationFailedMsg, [1000, 2000, 4000])
      ∧ ([1000, 2000, 4000].sum = 7000 ∧ 7000 ≥ 7000))
    ∧ (∀ j, j < 3 →
        (∀ i, i < j → ∃ e, att i = Except.error e ∧ isOverloadError e = true) →
        ∀ e, att j = Except.error e → isOverloadError e = false →
        moderateChatContentFlow att =
          (.error e, (List.range j).map fun i => 1000 * 2 ^ i)) := by
  constructor
  · intro h
    obtain ⟨e0, he0, ho0⟩ := h 0 (by omega)
    obtain ⟨e1, he1, ho1⟩ := h 1 (by omega)
    obtain ⟨e2, he2, ho2⟩ := h 2 (by omega)
    unfold moderateChatContentFlow
    refine ⟨?_, by norm_num⟩
    simp only [modGo, he0, ho0, he1, ho1, he2, ho2, if_true]
    norm_num
  · intro j hj hprev e hje hne
    interval_cases j
    · unfold moderateChatContentFlow
      simp [modGo, hje, hne]
    · obtain ⟨e0, he0, ho0⟩ := hprev 0 (by omega)
      unfold moderateChatContentFlow
      simp [modGo, he0, ho0, hje, hne, List.range_succ]
    · obtain ⟨e0, he0, ho0⟩ := hprev 0 (by omega)
      obtain ⟨e1, he1, ho1⟩ := hprev 1 (by omega)
      unfold moderateChatContentFlow
      simp [modGo, he0, ho0, he1, ho1, hje, hne, List.range_succ]

/-- A concrete overload error string. -/
def overloadErrSample : Str :=
  ("Error: [503 Service Unavailable] The model is overloaded. Please try again later.").toList

theorem c3_moderation_retry_witness :
    moderateChatContentFlow (fun _ => Except.error overloadErrSample) =
      (.error moderationFailedMsg, [1000, 2000, 4000])
    ∧ moderateChatContentFlow
        (fun _ => Except.error (("Error: quota exceeded").toList)) =
      (.error (("Error: quota exceeded").toList), []) :=
  ⟨((c3_moderation_retry (fun _ => Except.error overloadErrSample)).1
      (fun i _ => ⟨overloadErrSample, rfl, by decide⟩)).1,
   by
    have h := (c3_moderation_retry
        (fun _ => Except.error (("Error: quota exceeded").toList))).2
      0 (by omega) (fun i hi => absurd hi (by omega))
      (("Error: quota exceeded").toList) rfl (by decide)
    simpa using h⟩

/-- C5 counterexample.  The handler keeps no state and dispatches on the
original URL every time: (a) two consecutive failures of a usercontent
CDN URL both take the cache-busting step, so that step is not attempted
at most once; (b) for a drive URL already in export-view form, a
failure of the rewritten URL triggers the same rewrite again (the
handler sets `src` to the very same URL), never the inline preview
iframe promised as step (3). -/
theorem c5_counterexample :
    onErrorAction (("https://lh3.googleusercontent.com/img").toList) 100 =
      .setSrc (("https://lh3.googleusercontent.com/img?cb=100").toList)
    ∧ onErrorAction (("https://lh3.googleusercontent.com/img").toList) 101 =
      .setSrc (("https://lh3.googleusercontent.com/img?cb=101").toList)
    ∧ onErrorAction
        (("https://drive.google.com/uc?export=view&id=FID123").toList) 0 =
      .setSrc (("https://drive.google.com/uc?export=view&id=FID123").toList) :=
  ⟨by decide, by decide, by decide⟩

/-- C5 (amended): each invocation of the load-failure handler dispatches
on the original image URL: usercontent CDN URLs get a fresh
cache-busting parameter (on every failure, not at most once); otherwise
drive URLs with an extractable id (`id=` query, else `/d/` path) are
rewritten to the canonical export-view URL (again on every failure); a
URL that is neither gets the placeholder glyph; and the inline preview
iframe branch is unreachable. -/
theorem c5_fallback_chain (url : Str) (now : Nat) :
    (includes url gucHost = true →
      onErrorAction url now = .setSrc (cacheBustUrl url now))
    ∧ (includes url gucHost = false →
       includes url driveHost = true →
       ∀ fid, matchIdParam url = some fid →
         onErrorAction url now = .setSrc (exportViewUrl fid))
    ∧ (includes url gucHost = false →
       includes url driveHost = true →
       matchIdParam url = none →
       ∀ fid, matchSlashD url = some fid →
         onErrorAction url now = .setSrc (exportViewUrl fid))
    ∧ (includes url gucHost = false →
       (includes url driveHost = false ∨
        (matchIdParam url = none ∧ matchSlashD url = none)) →
       onErrorAction url now = .placeholder)
    ∧ (∀ fid, onErrorAction url now ≠ .iframeFor fid) := by
  refine ⟨?_, ?_, ?_, ?_, ?_⟩
  · intro h1
    simp [onErrorAction, h1]
  · intro h1 h2 fid hfid
    simp [onErrorAction, h1, h2, hfid]
  · intro h1 h2 hnone fid hfid
    simp [onErrorAction, h1, h2, hnone, hfid]
  · rintro h1 (h2 | ⟨ha, hb⟩)
    · simp [onErrorAction, h1, h2]
    · cases h2 : includes url driveHost <;>
        simp [onErrorAction, h1, h2, ha, hb]
  · intro fid
    cases h1 : includes url gucHost
    · cases h2 : includes url driveHost
      · simp [onErrorAction, h1, h2]
      · cases ha : matchIdParam url
        · cases hb : matchSlashD url
          · simp [onErrorAction, h1, h2, ha, hb]
          · simp [onErrorAction, h1, h2, ha, hb]
        · simp [onErrorAction, h1, h2, ha]
    · simp [onErrorAction, h1]

theorem c5_fallback_chain_witness :
    onErrorAction (("https://lh3.googleusercontent.com/img").toList) 7 =
      .setSrc
        (cacheBustUrl (("https://lh3.googleusercontent.com/img").toList) 7)
    ∧ onErrorAction (("https://example.com/x.png").toList) 7 = .placeholder :=
  ⟨(c5_fallback_chain (("https://lh3.googleusercontent.com/img").toList) 7).1
      (by decide),
   (c5_fallback_chain (("https://example.com/x.png").toList) 7).2.2.2.1
      (by decide) (Or.inl (by decide))⟩

/-- C10: answers with no placeholder tags can still come back with
images.  For `"Please see the manual"` (no tags, no image-name or
extension mention, relevance term `see` present) the first two pool
images are attached; for `"Open the login screen"` the login-named pool
images are attached.  In both cases the model never referenced any
image. -/
theorem c10_unreferenced_images :
    extractAll matchGeneralAt (("Please see the manual").toList) = []
    ∧ extractAll matchStepAt (("Please see the manual").toList) = []
    ∧ generateResponseFromDrive (("Please see the manual").toList)
        [⟨("id1").toList, ("alpha.bin").toList, ("L1").toList⟩,
         ⟨("id2").toList, ("beta.bin").toList, ("L2").toList⟩,
         ⟨("id3").toList, ("gamma.bin").toList, ("L3").toList⟩] =
      ⟨(("Please see the manual").toList),
        [⟨("id1").toList, ("L1").toList, none⟩,
         ⟨("id2").toList, ("L2").toList, none⟩]⟩
    ∧ generateResponseFromDrive (("Open the login screen").toList)
        [⟨("a").toList, ("guide.bin").toList, ("L1").toList⟩,
         ⟨("b").toList, ("login1.png").toList, ("L2").toList⟩,
         ⟨("c").toList, ("login2.png").toList, ("L3").toList⟩] =
      ⟨(("Open the login screen").toList),
        [⟨("b").toList, ("L2").toList, none⟩,
         ⟨("c").toList, ("L3").toList, none⟩]⟩ :=
  ⟨by decide, by decide, by decide, by decide⟩

/-- C4: a message flagged harmful produces an error outcome with the
moderation feedback, no response; the result does not depend on the
knowledge base or on any generation result (the message is never passed
to the answer-generation step); and the transcript update removes the
in-flight user message while surfacing the feedback as the (destructive)
toast text. -/
theorem c4_harmful_message (m : ModerationOutput) (kb : Str) (gen : GenOutput)
    (prev : List ChatMsg) (userMessage : ChatMsg) (botId : Str)
    (hh : m.isHarmful = true) :
    (handleSendMessage m kb gen).error =
      some ((("Message flagged as harmful. ").toList) ++ m.feedback)
    ∧ (handleSendMessage m kb gen).response = none
    ∧ (∀ kb2 gen2, handleSendMessage m kb2 gen2 = handleSendMessage m kb gen)
    ∧ (handleSubmitUpdate prev userMessage botId
        (handleSendMessage m kb gen)).2 =
      some ((("Message flagged as harmful. ").toList) ++ m.feedback)
    ∧ ∀ msg ∈ (handleSubmitUpdate prev userMessage botId
        (handleSendMessage m kb gen)).1, ¬(msg.id = userMessage.id) := by
  have hr : handleSendMessage m kb gen =
      { response := none
        error := some ((("Message flagged as harmful. ").toList) ++ m.feedback)
        images := none
        suggestTicket := none } := by
    simp [handleSendMessage, hh]
  refine ⟨by rw [hr], by rw [hr], ?_, ?_, ?_⟩
  · intro kb2 gen2
    rw [hr]
    simp [handleSendMessage, hh]
  · rw [hr]
    simp [handleSubmitUpdate]
  · rw [hr]
    intro msg hmsg
    simp only [handleSubmitUpdate] at hmsg
    have h2 := (List.mem_filter.mp hmsg).2
    simpa using h2

theorem c4_harmful_message_witness :
    (handleSendMessage ⟨true, none, none, ("offensive").toList⟩ [] ⟨[], []⟩).error =
      some ((("Message flagged as harmful. ").toList) ++ (("offensive").toList))
    ∧ (handleSendMessage ⟨true, none, none, ("offensive").toList⟩ []
        ⟨[], []⟩).response = none
    ∧ (handleSubmitUpdate [] ⟨("u1").toList, .user, ("hi").toList, none, none⟩
        (("b1").toList)
        (handleSendMessage ⟨true, none, none, ("offensive").toList⟩ []
          ⟨[], []⟩)).2 =
      some ((("Message flagged as harmful. ").toList) ++ (("offensive").toList)) :=
  ⟨(c4_harmful_message ⟨true, none, none, ("offensive").toList⟩ [] ⟨[], []⟩
      [] ⟨("u1").toList, .user, ("hi").toList, none, none⟩ (("b1").toList)
      rfl).1,
   (c4_harmful_message ⟨true, none, none, ("offensive").toList⟩ [] ⟨[], []⟩
      [] ⟨("u1").toList, .user, ("hi").toList, none, none⟩ (("b1").toList)
      rfl).2.1,
   (c4_harmful_message ⟨true, none, none, ("offensive").toList⟩ [] ⟨[], []⟩
      [] ⟨("u1").toList, .user, ("hi").toList, none, none⟩ (("b1").toList)
      rfl).2.2.2.1⟩

/-- C7: when the configured folder lists no documents, `getKnowledgeBase`
returns exactly the no-documents literal; the (ticket-enabled)
`handleSendMessage` then answers with that literal (plus the
ticket-suggestion sentence appended) and sets `suggestTicket`. -/
theorem c7_no_documents (fid : Str) (items : List DriveItem)
    (contents : Str → Str) (imagesIn : Str → List DriveItem)
    (m : ModerationOutput) (gen : GenOutput)
    (hdocs : items.filter isDocMime = [])
    (hm : m.isHarmful = false) :
    getKnowledgeBase (some fid) items contents imagesIn = .text noDocsMsg
    ∧ (handleSendMessage m noDocsMsg gen).response =
        some (noDocsMsg ++ ticketSuffix)
    ∧ (handleSendMessage m noDocsMsg gen).suggestTicket = some true
    ∧ startsWith (noDocsMsg ++ ticketSuffix) noDocsMsg = true := by
  have hsw : startsWith noDocsMsg ['E', 'r', 'r', 'o', 'r', ':'] = false := by
    decide
  refine ⟨?_, ?_, ?_, startsWith_self_append _ _⟩
  · simp [getKnowledgeBase, hdocs]
  · simp [handleSendMessage, hm, hsw]
  · simp [handleSendMessage, hm, hsw]

theorem c7_no_documents_witness :
    getKnowledgeBase (some (("folder1").toList))
        [⟨("f1").toList, ("images").toList,
          ("application/vnd.google-apps.folder").toList⟩]
        (fun _ => []) (fun _ => []) = .text noDocsMsg
    ∧ (handleSendMessage ⟨false, none, none, []⟩ noDocsMsg ⟨[], []⟩).response =
        some (noDocsMsg ++ ticketSuffix)
    ∧ (handleSendMessage ⟨false, none, none, []⟩ noDocsMsg
        ⟨[], []⟩).suggestTicket = some true :=
  ⟨(c7_no_documents (("folder1").toList) _ (fun _ => []) (fun _ => [])
      ⟨false, none, none, []⟩ ⟨[], []⟩ (by decide) rfl).1,
   (c7_no_documents (("folder1").toList)
      [⟨("f1").toList, ("images").toList,
        ("application/vnd.google-apps.folder").toList⟩]
      (fun _ => []) (fun _ => [])
      ⟨false, none, none, []⟩ ⟨[], []⟩ (by decide) rfl).2.1,
   (c7_no_documents (("folder1").toList)
      [⟨("f1").toList, ("images").toList,
        ("application/vnd.google-apps.folder").toList⟩]
      (fun _ => []) (fun _ => [])
      ⟨false, none, none, []⟩ ⟨[], []⟩ (by decide) rfl).2.2.1⟩

/-- C1 (amended): a step-tagged reference is resolved by fuzzy NAME
matching of the whole captured text (name plus id portion) against the
pool image names, not by id lookup.  For the answer consisting of the
tag `[image-step2: foo.png (ID: abc)]` and a one-image pool: an image
whose name does not fuzzy-match the captured text contributes no entry
(and the raw answer is returned, since nothing is selected); an image
that does match (and satisfies the step-association containment test)
yields the entry with stepId `step-2` resolving to THAT image,
regardless of the tag's id. -/
theorem c1_name_matching (img : DriveImage) :
    (fuzzyMatch img stepCap2 = false →
      generateResponseFromDrive stepTag2 [img] = ⟨stepTag2, []⟩)
    ∧ (fuzzyMatch img stepCap2 = true →
      (includes (lower img.name) (lower stepCap2)
        || includes (lower stepCap2) (lower img.name)) = true →
      generateResponseFromDrive stepTag2 [img] =
        ⟨[], [⟨img.id, img.contentLink, some (("step-2").toList)⟩]⟩) := by
  have hs : stepRefs stepTag2 = [(['2'], stepCap2)] := by decide
  have hr : requestedNames0 stepTag2 = [stepCap2] := by decide
  have hc : cleanResponse stepTag2 = [] := by decide
  have hmb : mightBenefitFromImages [] = false := by decide
  constructor
  · intro hf
    simp [generateResponseFromDrive, selectedPool, selectImages, hr, hs, hc,
      hf, hmb]
  · intro hf ha
    have hfind : stepAssocFor [(['2'], stepCap2)] img =
        some (['2'], stepCap2) := by
      unfold stepAssocFor
      simp [List.find?, ha]
    have hmk : mkEntry [(['2'], stepCap2)] img =
        ⟨img.id, img.contentLink, some ['s', 't', 'e', 'p', '-', '2']⟩ := by
      unfold mkEntry
      rw [hfind]
      simp
    simp [generateResponseFromDrive, selectedPool, selectImages, hr, hs, hc,
      hf, hmk]

theorem c1_name_matching_witness :
    generateResponseFromDrive stepTag2
        [⟨("abc").toList, ("bar.png").toList, ("L2").toList⟩] =
      ⟨stepTag2, []⟩
    ∧ generateResponseFromDrive stepTag2
        [⟨("xyz").toList, ("foo.png").toList, ("L").toList⟩] =
      ⟨[], [⟨("xyz").toList, ("L").toList, some (("step-2").toList)⟩]⟩ :=
  ⟨(c1_name_matching
      ⟨("abc").toList, ("bar.png").toList, ("L2").toList⟩).1 (by decide),
   (c1_name_matching
      ⟨("xyz").toList, ("foo.png").toList, ("L").toList⟩).2 (by decide)
      (by decide)⟩

/-! ## C6: duplicate tags -/

theorem selectImages_pair (c : Str) (pool : List DriveImage) :
    selectImages [c, c] pool = selectImages [c] pool := by
  unfold selectImages
  have hfn : (fun image => [c, c].any fun name => fuzzyMatch image name) =
      (fun image => [c].any fun name => fuzzyMatch image name) := by
    funext image
    cases h : fuzzyMatch image c <;> simp [h]
  rw [hfn]

theorem selectedPool_pair (c : Str) (cleaned : Str)
    (pool : List DriveImage) :
    selectedPool [c, c] cleaned pool = selectedPool [c] cleaned pool := by
  simp [selectedPool, selectImages_pair]

theorem find?_pair {α} (p : α → Bool) (a : α) :
    List.find? p [a, a] = List.find? p [a] := by
  cases h : p a <;> simp [List.find?, h]

theorem mkEntry_pair (d : Str × Str) : mkEntry [d, d] = mkEntry [d] := by
  funext img
  unfold mkEntry stepAssocFor
  rw [find?_pair]

theorem extractAll_step_single (p s : Str) (hp : noLB p = true)
    (hs : noLB s = true) :
    extractAll matchStepAt (p ++ stepTag2 ++ s) = [(['2'], stepCap2)] := by
  unfold extractAll
  rw [List.append_assoc]
  rw [extrTags_skip matchStepAt matchStepAt_none_of_head p (stepTag2 ++ s) _
    hp (by simp)]
  rw [extrTags_step_tag2 s _
    (by simp only [List.length_append, stepTag2_len]; omega)]
  rw [extrTags_noLB_nil matchStepAt matchStepAt_none_of_head s _ hs
    (by simp only [List.length_append, stepTag2_len]; omega)]
  rfl

theorem extractAll_gen_single (p s : Str) (hp : noLB p = true)
    (hs : noLB s = true) :
    extractAll matchGeneralAt (p ++ stepTag2 ++ s) = [] := by
  unfold extractAll
  rw [List.append_assoc]
  rw [extrTags_skip matchGeneralAt matchGeneralAt_none_of_head p
    (stepTag2 ++ s) _ hp (by simp)]
  rw [extrTags_gen_tag2 s _
    (by simp only [List.length_append, stepTag2_len]; omega)]
  rw [extrTags_noLB_nil matchGeneralAt matchGeneralAt_none_of_head s _ hs
    (by simp only [List.length_append, stepTag2_len]; omega)]

theorem extractAll_step_double (p1 p2 p3 : Str) (h1 : noLB p1 = true)
    (h2 : noLB p2 = true) (h3 : noLB p3 = true) :
    extractAll matchStepAt (p1 ++ stepTag2 ++ p2 ++ stepTag2 ++ p3) =
      [(['2'], stepCap2), (['2'], stepCap2)] := by
  unfold extractAll
  simp only [List.append_assoc]
  rw [extrTags_skip matchStepAt matchStepAt_none_of_head p1
    (stepTag2 ++ (p2 ++ (stepTag2 ++ p3))) _ h1 (by simp)]
  rw [extrTags_step_tag2 (p2 ++ (stepTag2 ++ p3)) _
    (by simp only [List.length_append, stepTag2_len]; omega)]
  rw [extrTags_skip matchStepAt matchStepAt_none_of_head p2
    (stepTag2 ++ p3) _ h2
    (by simp only [List.length_append, stepTag2_len]; omega)]
  rw [extrTags_step_tag2 p3 _
    (by simp only [List.length_append, stepTag2_len]; omega)]
  rw [extrTags_noLB_nil matchStepAt matchStepAt_none_of_head p3 _ h3
    (by simp only [List.length_append, stepTag2_len]; omega)]
  rfl

theorem extractAll_gen_double (p1 p2 p3 : Str) (h1 : noLB p1 = true)
    (h2 : noLB p2 = true) (h3 : noLB p3 = true) :
    extractAll matchGeneralAt (p1 ++ stepTag2 ++ p2 ++ stepTag2 ++ p3) =
      [] := by
  unfold extractAll
  simp only [List.append_assoc]
  rw [extrTags_skip matchGeneralAt matchGeneralAt_none_of_head p1
    (stepTag2 ++ (p2 ++ (stepTag2 ++ p3))) _ h1 (by simp)]
  rw [extrTags_gen_tag2 (p2 ++ (stepTag2 ++ p3)) _
    (by simp only [List.length_append, stepTag2_len]; omega)]
  rw [extrTags_skip matchGeneralAt matchGeneralAt_none_of_head p2
    (stepTag2 ++ p3) _ h2
    (by simp only [List.length_append, stepTag2_len]; omega)]
  rw [extrTags_gen_tag2 p3 _
    (by simp only [List.length_append, stepTag2_len]; omega)]
  rw [extrTags_noLB_nil matchGeneralAt matchGeneralAt_none_of_head p3 _ h3
    (by simp only [List.length_append, stepTag2_len]; omega)]

theorem replaceAll_gen_double (p1 p2 p3 : Str) (h1 : noLB p1 = true)
    (h2 : noLB p2 = true) (h3 : noLB p3 = true) :
    replaceAll matchGeneralAt (p1 ++ stepTag2 ++ p2 ++ stepTag2 ++ p3) =
      p1 ++ stepTag2 ++ p2 ++ stepTag2 ++ p3 := by
  unfold replaceAll
  simp only [List.append_assoc]
  rw [replTags_skip matchGeneralAt matchGeneralAt_none_of_head p1
    (stepTag2 ++ (p2 ++ (stepTag2 ++ p3))) _ h1 (by simp)]
  rw [replTags_gen_tag2 (p2 ++ (stepTag2 ++ p3)) _
    (by simp only [List.length_append, stepTag2_len]; omega)]
  rw [replTags_skip matchGeneralAt matchGeneralAt_none_of_head p2
    (stepTag2 ++ p3) _ h2
    (by simp only [List.length_append, stepTag2_len]; omega)]
  rw [replTags_gen_tag2 p3 _
    (by simp only [List.length_append, stepTag2_len]; omega)]
  rw [replTags_noLB_id matchGeneralAt matchGeneralAt_none_of_head p3 _ h3
    (by simp only [List.length_append, stepTag2_len]; omega)]

theorem replaceAll_step_double (p1 p2 p3 : Str) (h1 : noLB p1 = true)
    (h2 : noLB p2 = true) (h3 : noLB p3 = true) :
    replaceAll matchStepAt (p1 ++ stepTag2 ++ p2 ++ stepTag2 ++ p3) =
      p1 ++ (p2 ++ p3) := by
  unfold replaceAll
  simp only [List.append_assoc]
  rw [replTags_skip matchStepAt matchStepAt_none_of_head p1
    (stepTag2 ++ (p2 ++ (stepTag2 ++ p3))) _ h1 (by simp)]
  rw [replTags_step_tag2 (p2 ++ (stepTag2 ++ p3)) _
    (by simp only [List.length_append, stepTag2_len]; omega)]
  rw [replTags_skip matchStepAt matchStepAt_none_of_head p2
    (stepTag2 ++ p3) _ h2
    (by simp only [List.length_append, stepTag2_len]; omega)]
  rw [replTags_step_tag2 p3 _
    (by simp only [List.length_append, stepTag2_len]; omega)]
  rw [replTags_noLB_id matchStepAt matchStepAt_none_of_head p3 _ h3
    (by simp only [List.length_append, stepTag2_len]; omega)]

theorem cleanResponse_double (p1 p2 p3 : Str) (h1 : noLB p1 = true)
    (h2 : noLB p2 = true) (h3 : noLB p3 = true) :
    cleanResponse (p1 ++ stepTag2 ++ p2 ++ stepTag2 ++ p3) =
      trim (p1 ++ (p2 ++ p3)) := by
  unfold cleanResponse
  rw [replaceAll_gen_double p1 p2 p3 h1 h2 h3,
    replaceAll_step_double p1 p2 p3 h1 h2 h3]

theorem stepRefs_double (p1 p2 p3 : Str) (h1 : noLB p1 = true)
    (h2 : noLB p2 = true) (h3 : noLB p3 = true) :
    stepRefs (p1 ++ stepTag2 ++ p2 ++ stepTag2 ++ p3) =
      [(['2'], stepCap2), (['2'], stepCap2)] := by
  unfold stepRefs
  rw [extractAll_step_double p1 p2 p3 h1 h2 h3]
  rfl

theorem generalRefs_double (p1 p2 p3 : Str) (h1 : noLB p1 = true)
    (h2 : noLB p2 = true) (h3 : noLB p3 = true) :
    generalRefs (p1 ++ stepTag2 ++ p2 ++ stepTag2 ++ p3) = [] := by
  unfold generalRefs
  rw [extractAll_gen_double p1 p2 p3 h1 h2 h3]
  rfl

theorem stepRefs_single (p s : Str) (hp : noLB p = true)
    (hs : noLB s = true) :
    stepRefs (p ++ stepTag2 ++ s) = [(['2'], stepCap2)] := by
  unfold stepRefs
  rw [extractAll_step_single p s hp hs]
  rfl

theorem generalRefs_single (p s : Str) (hp : noLB p = true)
    (hs : noLB s = true) :
    generalRefs (p ++ stepTag2 ++ s) = [] := by
  unfold generalRefs
  rw [extractAll_gen_single p s hp hs]
  rfl

/-- C6 counterexample.  Duplicating the identical tag does NOT leave the
output unchanged in general: with a pool that matches neither tag, no
image is selected and the RAW answer (with one or with two tags) is
returned, so the outputs differ; the image list holds zero entries for
the pair, not exactly one. -/
theorem c6_counterexample :
    generateResponseFromDrive (stepTag2 ++ stepTag2)
        [⟨("abc").toList, ("bar.png").toList, ("L2").toList⟩] ≠
      generateResponseFromDrive stepTag2
        [⟨("abc").toList, ("bar.png").toList, ("L2").toList⟩]
    ∧ generateResponseFromDrive (stepTag2 ++ stepTag2)
        [⟨("abc").toList, ("bar.png").toList, ("L2").toList⟩] =
      ⟨stepTag2 ++ stepTag2, []⟩
    ∧ generateResponseFromDrive stepTag2
        [⟨("abc").toList, ("bar.png").toList, ("L2").toList⟩] =
      ⟨stepTag2, []⟩ :=
  ⟨by decide, by decide, by decide⟩

/-- C6 (amended): duplicate identical step tags collapse: for any pool
and any tag-free contexts, the output image list for the answer with the
tag twice equals the one for the answer with the tag once; and whenever
any image is attached, the entire outputs coincide.  (Only in the
no-image case do the outputs differ, because the raw answer — with one
or two tags — is returned.) -/
theorem c6_duplicate_collapse (p1 p2 p3 : Str) (pool : List DriveImage)
    (h1 : noLB p1 = true) (h2 : noLB p2 = true) (h3 : noLB p3 = true) :
    (generateResponseFromDrive (p1 ++ stepTag2 ++ p2 ++ stepTag2 ++ p3)
        pool).imageUrls =
      (generateResponseFromDrive (p1 ++ stepTag2 ++ p2 ++ p3) pool).imageUrls
    ∧ ((generateResponseFromDrive (p1 ++ stepTag2 ++ p2 ++ stepTag2 ++ p3)
          pool).imageUrls ≠ [] →
        generateResponseFromDrive (p1 ++ stepTag2 ++ p2 ++ stepTag2 ++ p3)
            pool =
          generateResponseFromDrive (p1 ++ stepTag2 ++ p2 ++ p3) pool) := by
  rw [List.append_assoc (p1 ++ stepTag2) p2 p3]
  have h23 : noLB (p2 ++ p3) = true := noLB_append h2 h3
  have hsA := stepRefs_double p1 p2 p3 h1 h2 h3
  have hgA := generalRefs_double p1 p2 p3 h1 h2 h3
  have hcA := cleanResponse_double p1 p2 p3 h1 h2 h3
  have hsB := stepRefs_single p1 (p2 ++ p3) h1 h23
  have hgB := generalRefs_single p1 (p2 ++ p3) h1 h23
  have hcB := cleanResponse_around p1 (p2 ++ p3) h1 h23
  have hrA : requestedNames0 (p1 ++ stepTag2 ++ p2 ++ stepTag2 ++ p3) =
      [stepCap2, stepCap2] := by
    unfold requestedNames0
    rw [hgA, hsA]
    rfl
  have hrB : requestedNames0 (p1 ++ stepTag2 ++ (p2 ++ p3)) = [stepCap2] := by
    unfold requestedNames0
    rw [hgB, hsB]
    rfl
  simp only [generateResponseFromDrive, hsA, hsB, hrA, hrB, hcA, hcB,
    selectedPool_pair, mkEntry_pair, List.isEmpty_cons, Bool.false_eq_true,
    if_false]
  cases hpool : pool.isEmpty
  · cases hlim :
      ((selectedPool [stepCap2] (trim (p1 ++ (p2 ++ p3))) pool).take 3).isEmpty
    · simp [hpool, hlim]
    · simp [hpool, hlim]
  · simp [hpool]

theorem c6_duplicate_collapse_witness :
    (generateResponseFromDrive
        ((("Step: ").toList) ++ stepTag2 ++ ((" and ").toList) ++ stepTag2 ++
          ((" end").toList))
        [⟨("xyz").toList, ("foo.png").toList, ("L").toList⟩]).imageUrls =
      (generateResponseFromDrive
        ((("Step: ").toList) ++ stepTag2 ++ ((" and ").toList) ++
          ((" end").toList))
        [⟨("xyz").toList, ("foo.png").toList, ("L").toList⟩]).imageUrls
    ∧ generateResponseFromDrive
        ((("Step: ").toList) ++ stepTag2 ++ ((" and ").toList) ++ stepTag2 ++
          ((" end").toList))
        [⟨("xyz").toList, ("foo.png").toList, ("L").toList⟩] =
      generateResponseFromDrive
        ((("Step: ").toList) ++ stepTag2 ++ ((" and ").toList) ++
          ((" end").toList))
        [⟨("xyz").toList, ("foo.png").toList, ("L").toList⟩] :=
  ⟨(c6_duplicate_collapse (("Step: ").toList) ((" and ").toList)
      ((" end").toList)
      [⟨("xyz").toList, ("foo.png").toList, ("L").toList⟩]
      (by decide) (by decide) (by decide)).1,
   (c6_duplicate_collapse (("Step: ").toList) ((" and ").toList)
      ((" end").toList)
      [⟨("xyz").toList, ("foo.png").toList, ("L").toList⟩]
      (by decide) (by decide) (by decide)).2 (by decide)⟩
